import Mathlib

/-!
# Shader program builder of the OpenGL tutorials

A shallow embedding of `newProgram`, `loadShaders`, `compileShader` and
`readShaderCode` (identical in `tutorial2/main.go` and `tutorial4/main.go`).

* Go strings are lists of characters, one `Char` standing for one byte.
* The graphics driver is an oracle (`Driver`): every answer may depend on the
  whole trace of GL calls issued so far.  The functions thread that trace.
* `log.Fatal` and Go panics end the run: they are `Result.abort`.
-/

namespace GLTutorial

/-- A Go string: a sequence of bytes, each modelled by one character. -/
abbrev GoString := List Char

/-- The terminator byte written as "\x00" in the source. -/
def NUL : Char := '\x00'

/-- Value of gl.FALSE. -/
def FALSE : Int := 0

/-- Value of gl.VERTEX_SHADER. -/
def VERTEX_SHADER : Nat := 0x8B31

/-- Value of gl.FRAGMENT_SHADER. -/
def FRAGMENT_SHADER : Nat := 0x8B30

/-- Value of gl.COMPILE_STATUS. -/
def COMPILE_STATUS : Nat := 0x8B81

/-- Value of gl.LINK_STATUS. -/
def LINK_STATUS : Nat := 0x8B82

/-- Value of gl.INFO_LOG_LENGTH. -/
def INFO_LOG_LENGTH : Nat := 0x8B84

/-- Wrap an integer into the range of Go's int32. -/
def toInt32 (x : Int) : Int := (x + 2 ^ 31) % 2 ^ 32 - 2 ^ 31

/-- Wrap a natural number into the range of Go's uint32. -/
def toUint32 (n : Nat) : Nat := n % 2 ^ 32

/-- One call of the graphics API, with the arguments the program passes. -/
inductive GLCall where
  | CreateShader (shaderType : Nat)
  | ShaderSource (shader : Nat) (source : GoString)
  | CompileShader (shader : Nat)
  | GetShaderiv (shader : Nat) (pname : Nat)
  | GetShaderInfoLog (shader : Nat) (bufSize : Int) (buf : GoString)
  | CreateProgram
  | AttachShader (program : Nat) (shader : Nat)
  | LinkProgram (program : Nat)
  | GetProgramiv (program : Nat) (pname : Nat)
  | GetProgramInfoLog (program : Nat) (bufSize : Int) (buf : GoString)
  | DetachShader (program : Nat) (shader : Nat)
  | DeleteShader (shader : Nat)
  deriving DecidableEq, Repr

/-- The graphics driver: what each value-returning call answers, given the trace
of calls made before it.  A query that leaves its out-parameter untouched is the
answer 0, the initial value of the Go variable. -/
structure Driver where
  createShader : List GLCall → Nat → Nat
  createProgram : List GLCall → Nat
  getShaderiv : List GLCall → Nat → Nat → Int
  getProgramiv : List GLCall → Nat → Nat → Int
  shaderInfoLog : List GLCall → Nat → GoString
  programInfoLog : List GLCall → Nat → GoString

/-- A file: its bytes, and whether reading it ends in an I/O error instead of
end-of-file. -/
structure File where
  content : GoString
  readErr : Bool
  deriving DecidableEq, Repr

/-- The file system: os.Open fails on the paths mapped to none. -/
abbrev FileSystem := GoString → Option File

/-- Errors reported by scanner.Err(). -/
inductive ScanError where
  | tooLong
  | readFailed
  deriving DecidableEq, Repr

/-- The ways a run ends without returning. -/
inductive Abort where
  | fatalOpen (path : GoString)
  | fatalScan (e : ScanError)
  | panicRepeat
  | panicStr
  deriving DecidableEq, Repr

/-- Outcome of a function that issues GL calls: the trace after it, and either
the returned value or the reason the process stopped. -/
inductive Result (α : Type) where
  | ok (val : α) (trace : List GLCall)
  | abort (why : Abort) (trace : List GLCall)
  deriving DecidableEq, Repr

deriving instance DecidableEq for Except

/-- Value of bufio.MaxScanTokenSize. -/
def maxScanTokenSize : Nat := 64 * 1024

/-- The dropCR helper of bufio: drop one trailing carriage return. -/
def dropCR (data : GoString) : GoString :=
  if data.getLast? = some '\r' then data.dropLast else data

/-- The raw lines bufio.ScanLines cuts the input into (newline removed, carriage
return still there); cur is the line being accumulated. -/
def splitLines : GoString → GoString → List GoString
  | cur, [] => if cur = [] then [] else [cur]
  | cur, c :: rest =>
    if c = '\n' then cur :: splitLines [] rest else splitLines (cur ++ [c]) rest

/-- The tokens the scanner yields from the raw lines, and whether it stopped on
a line that does not fit its buffer. -/
def scanTokens : List GoString → List GoString × Bool
  | [] => ([], false)
  | l :: ls =>
    if maxScanTokenSize ≤ l.length then ([], true)
    else ((dropCR l) :: (scanTokens ls).1, (scanTokens ls).2)

/-- A bufio.Scanner with the default ScanLines split run to the end of the file:
the texts of the successful Scan calls, and the final scanner.Err(). -/
def scan (f : File) : List GoString × Option ScanError :=
  let r := scanTokens (splitLines [] f.content)
  (r.1, if r.2 then some ScanError.tooLong
        else if f.readErr then some ScanError.readFailed else none)

/-- Embedding of readShaderCode: log.Fatal is the error side. -/
def readShaderCode (fs : FileSystem) (filePath : GoString) : Except Abort GoString :=
  match fs filePath with
  | none => .error (.fatalOpen filePath)
  | some f =>
    let code := (scan f).1.foldl (fun code text => code ++ ('\n' :: text)) []
    match (scan f).2 with
    | some e => .error (.fatalScan e)
    | none => .ok (code ++ [NUL])

/-- Go's strings.Repeat, which panics on a negative count. -/
def stringsRepeat (s : GoString) (count : Int) : Option GoString :=
  if count < 0 then none else some (List.replicate count.toNat s).flatten

/-- The check of gl.Str, which panics unless its argument ends in NUL. -/
def glStr (s : GoString) : Option GoString :=
  if s.getLast? = some NUL then some s else none

/-- The buffer after an info-log fetch with the given bufSize: the driver
overwrites at most bufSize leading bytes of it. -/
def fetchInto (buf : GoString) (bufSize : Int) (text : GoString) : GoString :=
  text.take bufSize.toNat ++ buf.drop (text.take bufSize.toNat).length

/-- The message of fmt.Errorf("failed to compile %v: %v", source, log). -/
def compileError (source log : GoString) : GoString :=
  "failed to compile ".toList ++ source ++ ": ".toList ++ log

/-- The message of fmt.Errorf("failed to link program: %v", log). -/
def linkError (log : GoString) : GoString :=
  "failed to link program: ".toList ++ log

/-- The handle gl.CreateShader returns to compileShader started on trace t. -/
def createdShader (d : Driver) (shaderType : Nat) (t : List GLCall) : Nat :=
  toUint32 (d.createShader t shaderType)

/-- The calls compileShader has made when it reads the compile status:
CreateShader, ShaderSource, CompileShader. -/
def compileCalls (d : Driver) (source : GoString) (shaderType : Nat)
    (t : List GLCall) : List GLCall :=
  t ++ [.CreateShader shaderType,
    .ShaderSource (createdShader d shaderType t) source,
    .CompileShader (createdShader d shaderType t)]

/-- The value compileShader reads into status. -/
def compileStatus (d : Driver) (source : GoString) (shaderType : Nat)
    (t : List GLCall) : Int :=
  toInt32 (d.getShaderiv (compileCalls d source shaderType t)
    (createdShader d shaderType t) COMPILE_STATUS)

/-- The trace of compileShader once the compile status has been queried. -/
def compileTrace (d : Driver) (source : GoString) (shaderType : Nat)
    (t : List GLCall) : List GLCall :=
  compileCalls d source shaderType t
    ++ [.GetShaderiv (createdShader d shaderType t) COMPILE_STATUS]

/-- The value compileShader reads into logLength on the failure path. -/
def compileLogLength (d : Driver) (source : GoString) (shaderType : Nat)
    (t : List GLCall) : Int :=
  toInt32 (d.getShaderiv (compileTrace d source shaderType t)
    (createdShader d shaderType t) INFO_LOG_LENGTH)

/-- The trace of compileShader once the log length has been queried. -/
def compileLogTrace (d : Driver) (source : GoString) (shaderType : Nat)
    (t : List GLCall) : List GLCall :=
  compileTrace d source shaderType t
    ++ [.GetShaderiv (createdShader d shaderType t) INFO_LOG_LENGTH]

/-- Embedding of compileShader, started on trace t. -/
def compileShader (d : Driver) (source : GoString) (shaderType : Nat)
    (t : List GLCall) : Result (Nat × Option GoString) :=
  let shader := createdShader d shaderType t
  if compileStatus d source shaderType t = FALSE then
    let logLength := compileLogLength d source shaderType t
    let t3 := compileLogTrace d source shaderType t
    match stringsRepeat [NUL] (toInt32 (logLength + 1)) with
    | none => .abort .panicRepeat t3
    | some log =>
      match glStr log with
      | none => .abort .panicStr t3
      | some buf =>
        let log1 := fetchInto buf logLength (d.shaderInfoLog t3 shader)
        .ok (0, some (compileError source log1))
          (t3 ++ [.GetShaderInfoLog shader logLength buf])
  else
    .ok (shader, none) (compileTrace d source shaderType t)

/-- Embedding of loadShaders, started on trace t. -/
def loadShaders (fs : FileSystem) (d : Driver)
    (vertexFilePath fragmentFilePath : GoString) (t : List GLCall) :
    Result (Nat × Nat × Option GoString) :=
  match readShaderCode fs vertexFilePath with
  | .error a => .abort a t
  | .ok vsrc =>
    match compileShader d vsrc VERTEX_SHADER t with
    | .abort a t1 => .abort a t1
    | .ok (_, some _) t1 => .ok (0, 0, none) t1
    | .ok (vertexShaderID, none) t1 =>
      match readShaderCode fs fragmentFilePath with
      | .error a => .abort a t1
      | .ok fsrc =>
        match compileShader d fsrc FRAGMENT_SHADER t1 with
        | .abort a t2 => .abort a t2
        | .ok (_, some _) t2 => .ok (0, 0, none) t2
        | .ok (fragmentShaderID, none) t2 =>
          .ok (vertexShaderID, fragmentShaderID, none) t2

/-- The handle gl.CreateProgram returns to newProgram, t being the trace after
loadShaders. -/
def createdProgram (d : Driver) (t : List GLCall) : Nat :=
  toUint32 (d.createProgram t)

/-- The calls newProgram has made when it reads the link status: CreateProgram,
AttachShader twice, LinkProgram. -/
def linkCalls (d : Driver) (vertexShaderID fragmentShaderID : Nat)
    (t : List GLCall) : List GLCall :=
  t ++ [.CreateProgram, .AttachShader (createdProgram d t) vertexShaderID,
    .AttachShader (createdProgram d t) fragmentShaderID,
    .LinkProgram (createdProgram d t)]

/-- The value newProgram reads into status. -/
def linkStatus (d : Driver) (vertexShaderID fragmentShaderID : Nat)
    (t : List GLCall) : Int :=
  toInt32 (d.getProgramiv (linkCalls d vertexShaderID fragmentShaderID t)
    (createdProgram d t) LINK_STATUS)

/-- The trace of newProgram once the link status has been queried. -/
def linkTrace (d : Driver) (vertexShaderID fragmentShaderID : Nat)
    (t : List GLCall) : List GLCall :=
  linkCalls d vertexShaderID fragmentShaderID t
    ++ [.GetProgramiv (createdProgram d t) LINK_STATUS]

/-- The value newProgram reads into logLength on the failure path. -/
def linkLogLength (d : Driver) (vertexShaderID fragmentShaderID : Nat)
    (t : List GLCall) : Int :=
  toInt32 (d.getProgramiv (linkTrace d vertexShaderID fragmentShaderID t)
    (createdProgram d t) INFO_LOG_LENGTH)

/-- The trace of newProgram once the log length has been queried. -/
def linkLogTrace (d : Driver) (vertexShaderID fragmentShaderID : Nat)
    (t : List GLCall) : List GLCall :=
  linkTrace d vertexShaderID fragmentShaderID t
    ++ [.GetProgramiv (createdProgram d t) INFO_LOG_LENGTH]

/-- The body of newProgram after the loadShaders call returned the two shader
handles with a nil error, t being the trace at that point. -/
def linkStage (d : Driver) (vertexShaderID fragmentShaderID : Nat)
    (t : List GLCall) : Result (Nat × Option GoString) :=
  let programID := createdProgram d t
  if linkStatus d vertexShaderID fragmentShaderID t = FALSE then
    let logLength := linkLogLength d vertexShaderID fragmentShaderID t
    let t4 := linkLogTrace d vertexShaderID fragmentShaderID t
    match stringsRepeat [NUL] (toInt32 (logLength + 1)) with
    | none => .abort .panicRepeat t4
    | some log =>
      match glStr log with
      | none => .abort .panicStr t4
      | some buf =>
        let log1 := fetchInto buf logLength (d.programInfoLog t4 programID)
        .ok (0, some (linkError log1))
          (t4 ++ [.GetProgramInfoLog programID logLength buf])
  else
    .ok (programID, none)
      (linkTrace d vertexShaderID fragmentShaderID t
        ++ [.DetachShader programID vertexShaderID,
          .DetachShader programID fragmentShaderID,
          .DeleteShader vertexShaderID, .DeleteShader fragmentShaderID])

/-- Embedding of newProgram, started on trace t. -/
def newProgram (fs : FileSystem) (d : Driver)
    (vertexFilePath fragmentFilePath : GoString) (t : List GLCall) :
    Result (Nat × Option GoString) :=
  match loadShaders fs d vertexFilePath fragmentFilePath t with
  | .abort a t1 => .abort a t1
  | .ok (_, _, some err) t1 => .ok (0, some err) t1
  | .ok (vertexShaderID, fragmentShaderID, none) t1 =>
    linkStage d vertexShaderID fragmentShaderID t1

/-- The trace carried by an outcome. -/
def Result.trace {α : Type} : Result α → List GLCall
  | .ok _ t => t
  | .abort _ t => t

/-- The calls that only read driver state back (status, log length, log text). -/
def GLCall.isQuery : GLCall → Bool
  | .GetShaderiv _ _ => true
  | .GetShaderInfoLog _ _ _ => true
  | .GetProgramiv _ _ => true
  | .GetProgramInfoLog _ _ _ => true
  | _ => false

/-- The text readShaderCode accumulates before the terminator: every scanned
line with a newline in front of it. -/
def prefixedLines (lines : List GoString) : GoString :=
  (lines.map (fun text => '\n' :: text)).flatten

/-- A file's content with one final newline, if there is one, removed. -/
def chompNewline (s : GoString) : GoString :=
  if s.getLast? = some '\n' then s.dropLast else s

/-- The all-NUL buffer handed to an info-log fetch for log length L. -/
def logBuffer (L : Int) : GoString := List.replicate (L.toNat + 1) NUL

/-- Every log length the driver reports fits the buffer allocation of the
program: it is an int32 between 0 and 2^31 - 2. -/
def saneLogLengths (d : Driver) : Prop :=
  ∀ (t : List GLCall) (x : Nat),
    (0 ≤ toInt32 (d.getShaderiv t x INFO_LOG_LENGTH)
      ∧ toInt32 (d.getShaderiv t x INFO_LOG_LENGTH) < 2 ^ 31 - 1)
    ∧ (0 ≤ toInt32 (d.getProgramiv t x INFO_LOG_LENGTH)
      ∧ toInt32 (d.getProgramiv t x INFO_LOG_LENGTH) < 2 ^ 31 - 1)

/-- The file at the path opens and the scanner reaches its end without error. -/
def readable (fs : FileSystem) (path : GoString) : Prop :=
  ∃ f, fs path = some f ∧ (scan f).2 = none

/-! ## Concrete inputs -/

/-- A small file system: a vertex source, a fragment source, an empty file. -/
def demoFS : FileSystem := fun path =>
  if path = "v.vert".toList then some ⟨"a\nb\n".toList, false⟩
  else if path = "f.frag".toList then some ⟨"c\n".toList, false⟩
  else if path = "empty.vert".toList then some ⟨[], false⟩
  else none

/-- A driver that hands out shader handle 1 for the vertex stage, 2 for the
fragment stage and program handle 3, and answers the status and log queries
with the given values. -/
def demoDriver (vertexStatus fragmentStatus programStatus logLength : Int)
    (logText : GoString) : Driver where
  createShader := fun _ ty => if ty = VERTEX_SHADER then 1 else 2
  createProgram := fun _ => 3
  getShaderiv := fun _ shader pname =>
    if pname = COMPILE_STATUS then (if shader = 1 then vertexStatus else fragmentStatus)
    else logLength
  getProgramiv := fun _ _ pname =>
    if pname = LINK_STATUS then programStatus else logLength
  shaderInfoLog := fun _ _ => logText
  programInfoLog := fun _ _ => logText

/-! ## Lemmas on reading -/

theorem foldl_prefixed (lines : List GoString) (acc : GoString) :
    lines.foldl (fun code text => code ++ ('\n' :: text)) acc
      = acc ++ prefixedLines lines := by
  induction lines generalizing acc with
  | nil => simp [prefixedLines]
  | cons l ls ih =>
    simp only [List.foldl_cons, ih]
    simp [prefixedLines]

theorem readShaderCode_of_scan (fs : FileSystem) (p : GoString) (f : File)
    (hopen : fs p = some f) (hscan : (scan f).2 = none) :
    readShaderCode fs p = .ok (prefixedLines (scan f).1 ++ [NUL]) := by
  unfold readShaderCode
  rw [hopen]
  simp only [hscan, foldl_prefixed, List.nil_append]

theorem scanTokens_of_no_error (ls : List GoString)
    (h : (scanTokens ls).2 = false) : (scanTokens ls).1 = ls.map dropCR := by
  induction ls with
  | nil => simp [scanTokens]
  | cons l ls ih =>
    unfold scanTokens at h ⊢
    split
    · rename_i hl
      simp [hl] at h
    · rename_i hl
      simp only [hl, if_false] at h
      simp [ih h]

theorem dropCR_of_not_mem (l : GoString) (h : '\r' ∉ l) : dropCR l = l := by
  unfold dropCR
  split
  · rename_i hl
    exact absurd (List.mem_of_getLast?_eq_some hl) h
  · rfl

theorem splitLines_mem (rest : GoString) :
    ∀ (cur l : GoString), l ∈ splitLines cur rest → ∀ c ∈ l, c ∈ cur ∨ c ∈ rest := by
  induction rest with
  | nil =>
    intro cur l hl c hc
    unfold splitLines at hl
    split at hl
    · simp at hl
    · simp only [List.mem_singleton] at hl
      subst hl
      exact Or.inl hc
  | cons a rest ih =>
    intro cur l hl c hc
    unfold splitLines at hl
    split at hl
    · rcases List.mem_cons.mp hl with h | h
      · subst h
        exact Or.inl hc
      · rcases ih [] l h c hc with h1 | h1
        · simp at h1
        · exact Or.inr (List.mem_cons_of_mem _ h1)
    · rcases ih (cur ++ [a]) l hl c hc with h1 | h1
      · rcases List.mem_append.mp h1 with h2 | h2
        · exact Or.inl h2
        · simp only [List.mem_singleton] at h2
          subst h2
          exact Or.inr (List.mem_cons_self _ _)
      · exact Or.inr (List.mem_cons_of_mem _ h1)

theorem map_dropCR_splitLines (content : GoString) (h : '\r' ∉ content) :
    (splitLines [] content).map dropCR = splitLines [] content := by
  conv_rhs => rw [← List.map_id (splitLines [] content)]
  apply List.map_congr_left
  intro l hl
  simp only [id]
  apply dropCR_of_not_mem
  intro hc
  rcases splitLines_mem content [] l hl _ hc with h1 | h1
  · simp at h1
  · exact h h1

theorem chompNewline_append_newline_cons (cur rest : GoString) (hrest : rest ≠ []) :
    chompNewline (cur ++ '\n' :: rest) = cur ++ '\n' :: chompNewline rest := by
  have hlast : (cur ++ '\n' :: rest).getLast? = rest.getLast? := by
    rw [show cur ++ '\n' :: rest = (cur ++ ['\n']) ++ rest by simp]
    exact List.getLast?_append_of_ne_nil _ hrest
  unfold chompNewline
  rw [hlast]
  split
  · rw [show cur ++ '\n' :: rest = (cur ++ ['\n']) ++ rest by simp,
      List.dropLast_append_of_ne_nil _ hrest]
    simp
  · rfl

theorem prefixedLines_splitLines (rest : GoString) :
    ∀ cur : GoString, '\n' ∉ cur →
      prefixedLines (splitLines cur rest)
        = if cur ++ rest = [] then [] else '\n' :: chompNewline (cur ++ rest) := by
  induction rest with
  | nil =>
    intro cur hcur
    unfold splitLines
    by_cases hc : cur = []
    · simp [hc, prefixedLines]
    · have hch : chompNewline cur = cur := by
        unfold chompNewline
        split
        · rename_i hl
          exact absurd (List.mem_of_getLast?_eq_some hl) hcur
        · rfl
      simp [hc, prefixedLines, hch]
  | cons a rest ih =>
    intro cur hcur
    unfold splitLines
    by_cases ha : a = '\n'
    · subst ha
      have h0 := ih [] (by simp)
      simp only [List.nil_append] at h0
      simp only [if_true, prefixedLines, List.map_cons, List.flatten_cons] at h0 ⊢
      rw [h0]
      by_cases hr : rest = []
      · subst hr
        simp [chompNewline]
      · rw [chompNewline_append_newline_cons cur rest hr]
        simp [hr]
    · have h1 := ih (cur ++ [a]) (by
        intro hm
        rcases List.mem_append.mp hm with h | h
        · exact hcur h
        · simp only [List.mem_singleton] at h
          exact ha h.symm)
      simp only [ha, if_false]
      rw [h1]
      simp

/-! ## Lemmas on the log buffer -/

theorem toInt32_of_range (x : Int) (h1 : -(2 ^ 31) ≤ x) (h2 : x < 2 ^ 31) :
    toInt32 x = x := by
  unfold toInt32
  omega

theorem toInt32_bounds (x : Int) : -(2 ^ 31) ≤ toInt32 x ∧ toInt32 x < 2 ^ 31 := by
  unfold toInt32
  omega

theorem flatten_replicate_nul (n : Nat) :
    (List.replicate n [NUL]).flatten = List.replicate n NUL := by
  induction n with
  | zero => rfl
  | succ n ih => simp [List.replicate_succ, ih]

theorem stringsRepeat_in_range (L : Int) (h0 : 0 ≤ L) (h1 : L < 2 ^ 31 - 1) :
    stringsRepeat [NUL] (toInt32 (L + 1)) = some (List.replicate (L.toNat + 1) NUL) := by
  rw [toInt32_of_range (L + 1) (by omega) (by omega)]
  unfold stringsRepeat
  have hn : (L + 1).toNat = L.toNat + 1 := by omega
  rw [if_neg (by omega), hn, flatten_replicate_nul]

theorem stringsRepeat_out_of_range (L : Int) (hL : -(2 ^ 31) ≤ L ∧ L < 2 ^ 31)
    (h : L < -1 ∨ L = 2 ^ 31 - 1) :
    stringsRepeat [NUL] (toInt32 (L + 1)) = none := by
  unfold stringsRepeat toInt32
  rw [if_pos (by omega)]

theorem glStr_replicate (n : Nat) :
    glStr (List.replicate (n + 1) NUL) = some (List.replicate (n + 1) NUL) := by
  unfold glStr
  rw [if_pos (by simp [List.getLast?_replicate])]

theorem fetchInto_length (n : Nat) (L : Int) (text : GoString) (hL : L.toNat = n) :
    (fetchInto (List.replicate (n + 1) NUL) L text).length = n + 1 := by
  unfold fetchInto
  simp only [List.length_append, List.length_take, List.length_drop,
    List.length_replicate, hL]
  omega

theorem fetchInto_getLast (n : Nat) (L : Int) (text : GoString) (hL : L.toNat = n) :
    (fetchInto (List.replicate (n + 1) NUL) L text).getLast? = some NUL := by
  unfold fetchInto
  rw [hL, List.drop_replicate, List.length_take]
  have hk : n + 1 - min n text.length = (n - min n text.length) + 1 := by omega
  rw [hk, List.getLast?_append, List.getLast?_replicate]
  simp

theorem fetchInto_take (n : Nat) (L : Int) (text : GoString) (hL : L.toNat = n) :
    (fetchInto (List.replicate (n + 1) NUL) L text).take (min n text.length)
      = text.take n := by
  unfold fetchInto
  rw [hL]
  have hlen : (List.take n text).length = min n text.length := List.length_take _ _
  rw [← hlen, List.take_left]

/-! ## Lemmas on compileShader and the link stage -/

theorem compileShader_success (d : Driver) (source : GoString) (ty : Nat)
    (t : List GLCall) (h : compileStatus d source ty t ≠ FALSE) :
    compileShader d source ty t
      = .ok (createdShader d ty t, none) (compileTrace d source ty t) := by
  unfold compileShader
  simp only [if_neg h]

theorem compileShader_failure (d : Driver) (source : GoString) (ty : Nat)
    (t : List GLCall) (h : compileStatus d source ty t = FALSE)
    (h0 : 0 ≤ compileLogLength d source ty t)
    (h1 : compileLogLength d source ty t < 2 ^ 31 - 1) :
    compileShader d source ty t
      = .ok (0, some (compileError source
            (fetchInto (logBuffer (compileLogLength d source ty t))
              (compileLogLength d source ty t)
              (d.shaderInfoLog (compileLogTrace d source ty t) (createdShader d ty t)))))
          (compileLogTrace d source ty t
            ++ [.GetShaderInfoLog (createdShader d ty t) (compileLogLength d source ty t)
                  (logBuffer (compileLogLength d source ty t))]) := by
  unfold compileShader
  simp only [if_pos h, stringsRepeat_in_range _ h0 h1, glStr_replicate]
  rfl

theorem compileShader_panics (d : Driver) (source : GoString) (ty : Nat)
    (t : List GLCall) (h : compileStatus d source ty t = FALSE)
    (hL : compileLogLength d source ty t < -1
      ∨ compileLogLength d source ty t = 2 ^ 31 - 1) :
    compileShader d source ty t
      = .abort .panicRepeat (compileLogTrace d source ty t) := by
  unfold compileShader
  simp only [if_pos h,
    stringsRepeat_out_of_range _ (by unfold compileLogLength; exact toInt32_bounds _) hL]

theorem linkStage_success (d : Driver) (vid fid : Nat) (t : List GLCall)
    (h : linkStatus d vid fid t ≠ FALSE) :
    linkStage d vid fid t
      = .ok (createdProgram d t, none)
          (linkTrace d vid fid t
            ++ [.DetachShader (createdProgram d t) vid,
              .DetachShader (createdProgram d t) fid,
              .DeleteShader vid, .DeleteShader fid]) := by
  unfold linkStage
  simp only [if_neg h]

theorem linkStage_failure (d : Driver) (vid fid : Nat) (t : List GLCall)
    (h : linkStatus d vid fid t = FALSE)
    (h0 : 0 ≤ linkLogLength d vid fid t)
    (h1 : linkLogLength d vid fid t < 2 ^ 31 - 1) :
    linkStage d vid fid t
      = .ok (0, some (linkError
            (fetchInto (logBuffer (linkLogLength d vid fid t))
              (linkLogLength d vid fid t)
              (d.programInfoLog (linkLogTrace d vid fid t) (createdProgram d t)))))
          (linkLogTrace d vid fid t
            ++ [.GetProgramInfoLog (createdProgram d t) (linkLogLength d vid fid t)
                  (logBuffer (linkLogLength d vid fid t))]) := by
  unfold linkStage
  simp only [if_pos h, stringsRepeat_in_range _ h0 h1, glStr_replicate]
  rfl

/-! ## Lemmas on loadShaders and newProgram -/

theorem loadShaders_vertex_unreadable (fs : FileSystem) (d : Driver)
    (v f : GoString) (t : List GLCall) (a : Abort)
    (hv : readShaderCode fs v = .error a) :
    loadShaders fs d v f t = .abort a t := by
  unfold loadShaders
  rw [hv]

theorem loadShaders_vertex_failed (fs : FileSystem) (d : Driver)
    (v f : GoString) (t : List GLCall) (vsrc : GoString) (h : Nat) (e : GoString)
    (t1 : List GLCall) (hv : readShaderCode fs v = .ok vsrc)
    (hc : compileShader d vsrc VERTEX_SHADER t = .ok (h, some e) t1) :
    loadShaders fs d v f t = .ok (0, 0, none) t1 := by
  unfold loadShaders
  rw [hv]
  simp only [hc]

theorem loadShaders_fragment_unreadable (fs : FileSystem) (d : Driver)
    (v f : GoString) (t : List GLCall) (vsrc : GoString) (vh : Nat)
    (t1 : List GLCall) (a : Abort) (hv : readShaderCode fs v = .ok vsrc)
    (hc : compileShader d vsrc VERTEX_SHADER t = .ok (vh, none) t1)
    (hf : readShaderCode fs f = .error a) :
    loadShaders fs d v f t = .abort a t1 := by
  unfold loadShaders
  rw [hv]
  simp only [hc, hf]

theorem loadShaders_fragment_failed (fs : FileSystem) (d : Driver)
    (v f : GoString) (t : List GLCall) (vsrc : GoString) (vh : Nat)
    (t1 : List GLCall) (fsrc : GoString) (h : Nat) (e : GoString) (t2 : List GLCall)
    (hv : readShaderCode fs v = .ok vsrc)
    (hc : compileShader d vsrc VERTEX_SHADER t = .ok (vh, none) t1)
    (hf : readShaderCode fs f = .ok fsrc)
    (hc2 : compileShader d fsrc FRAGMENT_SHADER t1 = .ok (h, some e) t2) :
    loadShaders fs d v f t = .ok (0, 0, none) t2 := by
  unfold loadShaders
  rw [hv]
  simp only [hc, hf, hc2]

theorem loadShaders_both_compiled (fs : FileSystem) (d : Driver)
    (v f : GoString) (t : List GLCall) (vsrc : GoString) (vh : Nat)
    (t1 : List GLCall) (fsrc : GoString) (fh : Nat) (t2 : List GLCall)
    (hv : readShaderCode fs v = .ok vsrc)
    (hc : compileShader d vsrc VERTEX_SHADER t = .ok (vh, none) t1)
    (hf : readShaderCode fs f = .ok fsrc)
    (hc2 : compileShader d fsrc FRAGMENT_SHADER t1 = .ok (fh, none) t2) :
    loadShaders fs d v f t = .ok (vh, fh, none) t2 := by
  unfold loadShaders
  rw [hv]
  simp only [hc, hf, hc2]

theorem loadShaders_err_nil (fs : FileSystem) (d : Driver)
    (v f : GoString) (t : List GLCall) (vid fid : Nat) (e : Option GoString)
    (t1 : List GLCall) (h : loadShaders fs d v f t = .ok (vid, fid, e) t1) :
    e = none := by
  unfold loadShaders at h
  split at h
  · cases h
  · split at h
    · cases h
    · injection h with hv _
      simp only [Prod.mk.injEq] at hv
      exact hv.2.2.symm
    · split at h
      · cases h
      · split at h
        · cases h
        · injection h with hv _
          simp only [Prod.mk.injEq] at hv
          exact hv.2.2.symm
        · injection h with hv _
          simp only [Prod.mk.injEq] at hv
          exact hv.2.2.symm

theorem newProgram_of_loadShaders (fs : FileSystem) (d : Driver)
    (v f : GoString) (t : List GLCall) (vid fid : Nat) (e : Option GoString)
    (t1 : List GLCall) (h : loadShaders fs d v f t = .ok (vid, fid, e) t1) :
    newProgram fs d v f t = linkStage d vid fid t1 := by
  have he := loadShaders_err_nil fs d v f t vid fid e t1 h
  subst he
  unfold newProgram
  rw [h]

theorem newProgram_of_loadShaders_abort (fs : FileSystem) (d : Driver)
    (v f : GoString) (t : List GLCall) (a : Abort) (t1 : List GLCall)
    (h : loadShaders fs d v f t = .abort a t1) :
    newProgram fs d v f t = .abort a t1 := by
  unfold newProgram
  rw [h]

theorem linkCalls_prefix_linkStage (d : Driver) (vid fid : Nat) (t : List GLCall) :
    linkCalls d vid fid t <+: (linkStage d vid fid t).trace := by
  unfold linkStage
  split
  · simp only
    split
    · exact ⟨_, by simp [Result.trace, linkLogTrace, linkTrace]; rfl⟩
    · split
      · exact ⟨_, by simp [Result.trace, linkLogTrace, linkTrace]; rfl⟩
      · exact ⟨_, by simp [Result.trace, linkLogTrace, linkTrace]; rfl⟩
  · exact ⟨_, by simp [Result.trace, linkTrace]; rfl⟩

theorem linkStage_ok_cases (d : Driver) (vid fid : Nat) (t : List GLCall)
    (h : Nat) (e : Option GoString) (tr : List GLCall)
    (hr : linkStage d vid fid t = .ok (h, e) tr) :
    (e = none ∧ h = createdProgram d t ∧ linkStatus d vid fid t ≠ FALSE)
      ∨ (e ≠ none ∧ h = 0 ∧ linkStatus d vid fid t = FALSE) := by
  by_cases hs : linkStatus d vid fid t = FALSE
  · right
    unfold linkStage at hr
    simp only [if_pos hs] at hr
    split at hr
    · cases hr
    · split at hr
      · cases hr
      · injection hr with hv _
        simp only [Prod.mk.injEq] at hv
        refine ⟨?_, hv.1.symm, hs⟩
        rw [← hv.2]
        simp
  · left
    rw [linkStage_success d vid fid t hs] at hr
    injection hr with hv _
    simp only [Prod.mk.injEq] at hv
    exact ⟨hv.2.symm, hv.1.symm, hs⟩

theorem compileShader_returns (d : Driver) (hd : saneLogLengths d) (source : GoString)
    (ty : Nat) (t : List GLCall) :
    ∃ h e t1, compileShader d source ty t = .ok (h, e) t1 := by
  by_cases hs : compileStatus d source ty t = FALSE
  · exact ⟨_, _, _, compileShader_failure d source ty t hs (hd _ _).1.1 (hd _ _).1.2⟩
  · exact ⟨_, _, _, compileShader_success d source ty t hs⟩

theorem linkStage_returns (d : Driver) (hd : saneLogLengths d) (vid fid : Nat)
    (t : List GLCall) :
    ∃ h e t1, linkStage d vid fid t = .ok (h, e) t1 := by
  by_cases hs : linkStatus d vid fid t = FALSE
  · exact ⟨_, _, _, linkStage_failure d vid fid t hs (hd _ _).2.1 (hd _ _).2.2⟩
  · exact ⟨_, _, _, linkStage_success d vid fid t hs⟩

theorem readShaderCode_of_readable (fs : FileSystem) (p : GoString)
    (h : readable fs p) : ∃ code, readShaderCode fs p = .ok code := by
  obtain ⟨f, hopen, hscan⟩ := h
  exact ⟨_, readShaderCode_of_scan fs p f hopen hscan⟩

theorem loadShaders_returns (fs : FileSystem) (d : Driver) (hd : saneLogLengths d)
    (v f : GoString) (t : List GLCall) (hv : readable fs v) (hf : readable fs f) :
    ∃ vid fid t1, loadShaders fs d v f t = .ok (vid, fid, none) t1 := by
  obtain ⟨vsrc, hvs⟩ := readShaderCode_of_readable fs v hv
  obtain ⟨fsrc, hfs⟩ := readShaderCode_of_readable fs f hf
  obtain ⟨vh, ve, t1, hc⟩ := compileShader_returns d hd vsrc VERTEX_SHADER t
  cases ve with
  | some e => exact ⟨_, _, _, loadShaders_vertex_failed fs d v f t vsrc vh e t1 hvs hc⟩
  | none =>
    obtain ⟨fh, fe, t2, hc2⟩ := compileShader_returns d hd fsrc FRAGMENT_SHADER t1
    cases fe with
    | some e =>
      exact ⟨_, _, _,
        loadShaders_fragment_failed fs d v f t vsrc vh t1 fsrc fh e t2 hvs hc hfs hc2⟩
    | none =>
      exact ⟨_, _, _,
        loadShaders_both_compiled fs d v f t vsrc vh t1 fsrc fh t2 hvs hc hfs hc2⟩

theorem loadShaders_of_newProgram_ok (fs : FileSystem) (d : Driver)
    (v f : GoString) (t : List GLCall) (r : Nat × Option GoString) (tr : List GLCall)
    (hr : newProgram fs d v f t = .ok r tr) :
    ∃ vid fid t1, loadShaders fs d v f t = .ok (vid, fid, none) t1 := by
  cases hl : loadShaders fs d v f t with
  | abort a t1 =>
    rw [newProgram_of_loadShaders_abort fs d v f t a t1 hl] at hr
    cases hr
  | ok val t1 =>
    obtain ⟨vid, fid, e⟩ := val
    have he := loadShaders_err_nil fs d v f t vid fid e t1 hl
    subst he
    exact ⟨vid, fid, t1, rfl⟩

theorem compile_message_contains (source log : GoString) :
    source <:+: "failed to compile ".toList ++ source ++ ": ".toList ++ log
      ∧ log <:+: "failed to compile ".toList ++ source ++ ": ".toList ++ log :=
  ⟨⟨"failed to compile ".toList, ": ".toList ++ log, by simp⟩,
    ⟨"failed to compile ".toList ++ source ++ ": ".toList, [], by simp⟩⟩

/-! ## Claims on readShaderCode -/

/-- C5: for every file that opens and scans without error, the empty file
included, readShaderCode returns a string that is non-empty and whose last
character is NUL, so the string passes the NUL-terminator check applied to the
sources handed to the GL string conversion in compileShader. -/
theorem readShaderCode_nul_terminated (fs : FileSystem) (p : GoString) (f : File)
    (hopen : fs p = some f) (hscan : (scan f).2 = none) :
    ∃ code, readShaderCode fs p = .ok code ∧ code ≠ []
      ∧ code.getLast? = some NUL ∧ glStr code = some code := by
  refine ⟨prefixedLines (scan f).1 ++ [NUL], readShaderCode_of_scan fs p f hopen hscan,
    by simp, List.getLast?_concat _, ?_⟩
  unfold glStr
  rw [if_pos (List.getLast?_concat _)]

/-- Witness of C5 at the empty file: the result is the one-character string
holding NUL. -/
theorem readShaderCode_nul_terminated_witness :
    demoFS "empty.vert".toList = some ⟨[], false⟩
      ∧ readShaderCode demoFS "empty.vert".toList = .ok [NUL]
      ∧ ∃ code, readShaderCode demoFS "empty.vert".toList = .ok code ∧ code ≠ []
          ∧ code.getLast? = some NUL ∧ glStr code = some code :=
  ⟨by decide, by decide,
    readShaderCode_nul_terminated demoFS "empty.vert".toList ⟨[], false⟩
      (by decide) (by decide)⟩

/-- C6, as stated, fails: for the readable file holding "a\nb\n" readShaderCode
returns "\na\nb" followed by NUL, and that string without its NUL differs from
the content of the file. -/
theorem readShaderCode_differs_from_content :
    demoFS "v.vert".toList = some ⟨"a\nb\n".toList, false⟩
      ∧ readShaderCode demoFS "v.vert".toList = .ok "\na\nb\x00".toList
      ∧ "\na\nb\x00".toList.dropLast ≠ "a\nb\n".toList := by
  decide

/-- C6, amended: for every readable file, the string readShaderCode returns,
with its final NUL removed, is the concatenation of a newline followed by the
line, over the lines the scanner yields; when the file has no carriage return
that is the empty string for the empty file and otherwise one newline followed
by the content of the file without its final newline, if it has one. -/
theorem readShaderCode_prefixed_lines (fs : FileSystem) (p : GoString) (f : File)
    (hopen : fs p = some f) (hscan : (scan f).2 = none) :
    ∃ code, readShaderCode fs p = .ok code
      ∧ code.dropLast = prefixedLines (scan f).1
      ∧ ('\r' ∉ f.content →
          code.dropLast
            = if f.content = [] then [] else '\n' :: chompNewline f.content) := by
  refine ⟨prefixedLines (scan f).1 ++ [NUL], readShaderCode_of_scan fs p f hopen hscan,
    List.dropLast_concat, ?_⟩
  intro hcr
  rw [List.dropLast_concat]
  have hno : (scanTokens (splitLines [] f.content)).2 = false := by
    unfold scan at hscan
    simp only at hscan
    by_contra hc
    simp only [Bool.not_eq_false] at hc
    simp [hc] at hscan
  have htok : (scan f).1 = splitLines [] f.content := by
    unfold scan
    simp only
    rw [scanTokens_of_no_error _ hno, map_dropCR_splitLines _ hcr]
  rw [htok, prefixedLines_splitLines f.content [] (by simp)]
  simp

/-- Witness of amended C6 at the file holding "a\nb\n": the result without its
NUL is "\na\nb". -/
theorem readShaderCode_prefixed_lines_witness :
    ∃ code, readShaderCode demoFS "v.vert".toList = .ok code
      ∧ code.dropLast = "\na\nb".toList :=
  match readShaderCode_prefixed_lines demoFS "v.vert".toList ⟨"a\nb\n".toList, false⟩
      (by decide) (by decide) with
  | ⟨code, h1, _, h3⟩ => ⟨code, h1, (h3 (by decide)).trans (by decide)⟩

/-! ## Claims on the error path of loadShaders -/

/-- C10: for every file system, driver, pair of paths and starting trace, the
error loadShaders returns is nil; when the vertex or the fragment compileShader
call returns a non-nil error, loadShaders returns (0, 0, nil); so newProgram
never takes its error branch after loadShaders: it runs its link stage on what
loadShaders returned, and after a compile failure that stage starts with
CreateProgram, AttachShader(program, 0) twice and LinkProgram. -/
theorem loadShaders_swallows_compile_error (fs : FileSystem) (d : Driver)
    (v f : GoString) (t : List GLCall) :
    (∀ vid fid e t1, loadShaders fs d v f t = .ok (vid, fid, e) t1 →
        e = none ∧ newProgram fs d v f t = linkStage d vid fid t1)
    ∧ (∀ vsrc h e t1, readShaderCode fs v = .ok vsrc →
        compileShader d vsrc VERTEX_SHADER t = .ok (h, some e) t1 →
        loadShaders fs d v f t = .ok (0, 0, none) t1
          ∧ newProgram fs d v f t = linkStage d 0 0 t1
          ∧ t1 ++ [.CreateProgram, .AttachShader (createdProgram d t1) 0,
                .AttachShader (createdProgram d t1) 0,
                .LinkProgram (createdProgram d t1)]
              <+: (newProgram fs d v f t).trace)
    ∧ (∀ vsrc vh t1 fsrc h e t2, readShaderCode fs v = .ok vsrc →
        compileShader d vsrc VERTEX_SHADER t = .ok (vh, none) t1 →
        readShaderCode fs f = .ok fsrc →
        compileShader d fsrc FRAGMENT_SHADER t1 = .ok (h, some e) t2 →
        loadShaders fs d v f t = .ok (0, 0, none) t2
          ∧ newProgram fs d v f t = linkStage d 0 0 t2
          ∧ t2 ++ [.CreateProgram, .AttachShader (createdProgram d t2) 0,
                .AttachShader (createdProgram d t2) 0,
                .LinkProgram (createdProgram d t2)]
              <+: (newProgram fs d v f t).trace) := by
  refine ⟨?_, ?_, ?_⟩
  · intro vid fid e t1 h
    exact ⟨loadShaders_err_nil fs d v f t vid fid e t1 h,
      newProgram_of_loadShaders fs d v f t vid fid e t1 h⟩
  · intro vsrc h e t1 hv hc
    have hl := loadShaders_vertex_failed fs d v f t vsrc h e t1 hv hc
    have hn := newProgram_of_loadShaders fs d v f t 0 0 none t1 hl
    refine ⟨hl, hn, ?_⟩
    rw [hn]
    exact linkCalls_prefix_linkStage d 0 0 t1
  · intro vsrc vh t1 fsrc h e t2 hv hc hf hc2
    have hl := loadShaders_fragment_failed fs d v f t vsrc vh t1 fsrc h e t2 hv hc hf hc2
    have hn := newProgram_of_loadShaders fs d v f t 0 0 none t2 hl
    refine ⟨hl, hn, ?_⟩
    rw [hn]
    exact linkCalls_prefix_linkStage d 0 0 t2

/-- Witness of C10: with a driver that rejects the vertex shader (log length 3,
log text "bad") and accepts the link, compileShader returns an error,
loadShaders returns (0, 0, nil) and newProgram goes on to CreateProgram,
AttachShader(3, 0) twice and LinkProgram(3). -/
theorem loadShaders_swallows_compile_error_witness :
    loadShaders demoFS (demoDriver 0 1 1 3 "bad".toList) "v.vert".toList "f.frag".toList []
        = .ok (0, 0, none)
          [.CreateShader VERTEX_SHADER, .ShaderSource 1 "\na\nb\x00".toList,
            .CompileShader 1, .GetShaderiv 1 COMPILE_STATUS,
            .GetShaderiv 1 INFO_LOG_LENGTH,
            .GetShaderInfoLog 1 3 [NUL, NUL, NUL, NUL]]
      ∧ [.CreateShader VERTEX_SHADER, .ShaderSource 1 "\na\nb\x00".toList,
            .CompileShader 1, .GetShaderiv 1 COMPILE_STATUS,
            .GetShaderiv 1 INFO_LOG_LENGTH,
            .GetShaderInfoLog 1 3 [NUL, NUL, NUL, NUL]]
          ++ [.CreateProgram, .AttachShader 3 0, .AttachShader 3 0, .LinkProgram 3]
        <+: (newProgram demoFS (demoDriver 0 1 1 3 "bad".toList)
              "v.vert".toList "f.frag".toList []).trace :=
  have h := (loadShaders_swallows_compile_error demoFS (demoDriver 0 1 1 3 "bad".toList)
    "v.vert".toList "f.frag".toList []).2.1 "\na\nb\x00".toList 0
      (compileError "\na\nb\x00".toList "bad\x00".toList)
      [.CreateShader VERTEX_SHADER, .ShaderSource 1 "\na\nb\x00".toList,
        .CompileShader 1, .GetShaderiv 1 COMPILE_STATUS,
        .GetShaderiv 1 INFO_LOG_LENGTH,
        .GetShaderInfoLog 1 3 [NUL, NUL, NUL, NUL]]
      (by decide) (by decide)
  ⟨h.1, h.2.2⟩

/-- C1 fails on the code: the driver reports COMPILE_STATUS = FALSE for the
vertex shader (log "bad") and a successful link; newProgram does not abort, it
creates program 3, attaches shader 0 twice, links, and returns handle 3 with a
nil error. -/
theorem newProgram_continues_after_compile_failure :
    compileStatus (demoDriver 0 1 1 3 "bad".toList) "\na\nb\x00".toList VERTEX_SHADER []
        = FALSE
      ∧ newProgram demoFS (demoDriver 0 1 1 3 "bad".toList)
          "v.vert".toList "f.frag".toList []
        = .ok (3, none)
          [.CreateShader VERTEX_SHADER, .ShaderSource 1 "\na\nb\x00".toList,
            .CompileShader 1, .GetShaderiv 1 COMPILE_STATUS,
            .GetShaderiv 1 INFO_LOG_LENGTH,
            .GetShaderInfoLog 1 3 [NUL, NUL, NUL, NUL],
            .CreateProgram, .AttachShader 3 0, .AttachShader 3 0, .LinkProgram 3,
            .GetProgramiv 3 LINK_STATUS,
            .DetachShader 3 0, .DetachShader 3 0, .DeleteShader 0, .DeleteShader 0] := by
  decide

/-- C8 fails on the code. First run: the vertex shader compiles to handle 1 and
the fragment shader is rejected; newProgram returns and DeleteShader(1) is not
in its trace. Second run: both shaders compile and LINK_STATUS is FALSE;
newProgram returns (0, err) and again DeleteShader(1) is not in its trace. -/
theorem newProgram_leaks_vertex_shader :
    (newProgram demoFS (demoDriver 1 0 1 0 []) "v.vert".toList "f.frag".toList []
        = .ok (3, none)
          [.CreateShader VERTEX_SHADER, .ShaderSource 1 "\na\nb\x00".toList,
            .CompileShader 1, .GetShaderiv 1 COMPILE_STATUS,
            .CreateShader FRAGMENT_SHADER, .ShaderSource 2 "\nc\x00".toList,
            .CompileShader 2, .GetShaderiv 2 COMPILE_STATUS,
            .GetShaderiv 2 INFO_LOG_LENGTH, .GetShaderInfoLog 2 0 [NUL],
            .CreateProgram, .AttachShader 3 0, .AttachShader 3 0, .LinkProgram 3,
            .GetProgramiv 3 LINK_STATUS,
            .DetachShader 3 0, .DetachShader 3 0, .DeleteShader 0, .DeleteShader 0]
      ∧ GLCall.DeleteShader 1 ∉
          (newProgram demoFS (demoDriver 1 0 1 0 [])
            "v.vert".toList "f.frag".toList []).trace)
    ∧ (newProgram demoFS (demoDriver 1 1 0 0 []) "v.vert".toList "f.frag".toList []
        = .ok (0, some (linkError [NUL]))
          [.CreateShader VERTEX_SHADER, .ShaderSource 1 "\na\nb\x00".toList,
            .CompileShader 1, .GetShaderiv 1 COMPILE_STATUS,
            .CreateShader FRAGMENT_SHADER, .ShaderSource 2 "\nc\x00".toList,
            .CompileShader 2, .GetShaderiv 2 COMPILE_STATUS,
            .CreateProgram, .AttachShader 3 1, .AttachShader 3 2, .LinkProgram 3,
            .GetProgramiv 3 LINK_STATUS, .GetProgramiv 3 INFO_LOG_LENGTH,
            .GetProgramInfoLog 3 0 [NUL]]
      ∧ GLCall.DeleteShader 1 ∉
          (newProgram demoFS (demoDriver 1 1 0 0 [])
            "v.vert".toList "f.frag".toList []).trace) := by
  decide

/-- C7, as stated, fails when only the fragment path is missing: the vertex
shader is created, given its source, compiled and queried before the fragment
file is opened, so CreateShader, ShaderSource and CompileShader precede the
fatal I/O error in the trace. -/
theorem newProgram_compiles_before_fragment_open :
    demoFS "v.vert".toList ≠ none ∧ demoFS "missing.frag".toList = none
      ∧ newProgram demoFS (demoDriver 1 1 1 0 []) "v.vert".toList "missing.frag".toList []
        = .abort (.fatalOpen "missing.frag".toList)
          [.CreateShader VERTEX_SHADER, .ShaderSource 1 "\na\nb\x00".toList,
            .CompileShader 1, .GetShaderiv 1 COMPILE_STATUS] := by
  decide

/-- C7, amended: when the vertex path cannot be opened, newProgram stops with
the I/O error before any GL call, whatever the fragment path; when only the
fragment path cannot be opened and the vertex shader compiles, newProgram stops
with the I/O error after the vertex shader's CreateShader, ShaderSource,
CompileShader and status query, and before any call for the fragment shader. -/
theorem newProgram_missing_file (fs : FileSystem) (d : Driver)
    (v f : GoString) (t : List GLCall) :
    (fs v = none → newProgram fs d v f t = .abort (.fatalOpen v) t)
    ∧ (∀ vsrc, readShaderCode fs v = .ok vsrc → fs f = none →
        compileStatus d vsrc VERTEX_SHADER t ≠ FALSE →
        newProgram fs d v f t
          = .abort (.fatalOpen f)
              (t ++ [.CreateShader VERTEX_SHADER,
                .ShaderSource (createdShader d VERTEX_SHADER t) vsrc,
                .CompileShader (createdShader d VERTEX_SHADER t),
                .GetShaderiv (createdShader d VERTEX_SHADER t) COMPILE_STATUS])) := by
  constructor
  · intro hv
    apply newProgram_of_loadShaders_abort
    apply loadShaders_vertex_unreadable
    unfold readShaderCode
    rw [hv]
  · intro vsrc hv hf hs
    apply newProgram_of_loadShaders_abort
    have hc := compileShader_success d vsrc VERTEX_SHADER t hs
    have hr : readShaderCode fs f = .error (.fatalOpen f) := by
      unfold readShaderCode
      rw [hf]
    rw [loadShaders_fragment_unreadable fs d v f t vsrc _ _ _ hv hc hr]
    simp [compileTrace, compileCalls]

/-- Witness of amended C7: a missing vertex path gives the fatal error on the
empty trace; a missing fragment path gives it after the four vertex calls. -/
theorem newProgram_missing_file_witness :
    newProgram demoFS (demoDriver 1 1 1 0 []) "missing.vert".toList "f.frag".toList []
        = .abort (.fatalOpen "missing.vert".toList) []
      ∧ newProgram demoFS (demoDriver 1 1 1 0 []) "v.vert".toList "missing.frag".toList []
        = .abort (.fatalOpen "missing.frag".toList)
            ([] ++ [.CreateShader VERTEX_SHADER,
              .ShaderSource (createdShader (demoDriver 1 1 1 0 []) VERTEX_SHADER [])
                "\na\nb\x00".toList,
              .CompileShader (createdShader (demoDriver 1 1 1 0 []) VERTEX_SHADER []),
              .GetShaderiv (createdShader (demoDriver 1 1 1 0 []) VERTEX_SHADER [])
                COMPILE_STATUS]) :=
  ⟨(newProgram_missing_file demoFS (demoDriver 1 1 1 0 [])
      "missing.vert".toList "f.frag".toList []).1 (by decide),
    (newProgram_missing_file demoFS (demoDriver 1 1 1 0 [])
      "v.vert".toList "missing.frag".toList []).2 "\na\nb\x00".toList
        (by decide) (by decide) (by decide)⟩

/-! ## Claims on the link stage -/

/-- C3: for every run of newProgram in which loadShaders returned and the
queried LINK_STATUS is not FALSE, newProgram returns the handle CreateProgram
gave, with a nil error, and the trace after LinkProgram is the status query
followed by DetachShader(program, vertex), DetachShader(program, fragment),
DeleteShader(vertex), DeleteShader(fragment): leaving the read-only query
aside, exactly these four calls, none of which deletes the program. -/
theorem newProgram_success_trace (fs : FileSystem) (d : Driver) (v f : GoString)
    (t : List GLCall) (vid fid : Nat) (e : Option GoString) (t1 : List GLCall)
    (hload : loadShaders fs d v f t = .ok (vid, fid, e) t1)
    (hlink : linkStatus d vid fid t1 ≠ FALSE) :
    newProgram fs d v f t
        = .ok (createdProgram d t1, none)
          (t1 ++ [.CreateProgram, .AttachShader (createdProgram d t1) vid,
              .AttachShader (createdProgram d t1) fid,
              .LinkProgram (createdProgram d t1)]
            ++ [.GetProgramiv (createdProgram d t1) LINK_STATUS,
              .DetachShader (createdProgram d t1) vid,
              .DetachShader (createdProgram d t1) fid,
              .DeleteShader vid, .DeleteShader fid])
      ∧ [GLCall.GetProgramiv (createdProgram d t1) LINK_STATUS,
            .DetachShader (createdProgram d t1) vid,
            .DetachShader (createdProgram d t1) fid,
            .DeleteShader vid, .DeleteShader fid].filter (fun c => !c.isQuery)
          = [.DetachShader (createdProgram d t1) vid,
            .DetachShader (createdProgram d t1) fid,
            .DeleteShader vid, .DeleteShader fid] := by
  constructor
  · rw [newProgram_of_loadShaders fs d v f t vid fid e t1 hload,
      linkStage_success d vid fid t1 hlink]
    simp [linkTrace, linkCalls]
  · simp [GLCall.isQuery]

/-- Witness of C3: both demo shaders compile (handles 1 and 2) and the link
succeeds; newProgram returns program 3. -/
theorem newProgram_success_trace_witness :
    newProgram demoFS (demoDriver 1 1 1 0 []) "v.vert".toList "f.frag".toList []
      = .ok (createdProgram (demoDriver 1 1 1 0 [])
            [.CreateShader VERTEX_SHADER, .ShaderSource 1 "\na\nb\x00".toList,
              .CompileShader 1, .GetShaderiv 1 COMPILE_STATUS,
              .CreateShader FRAGMENT_SHADER, .ShaderSource 2 "\nc\x00".toList,
              .CompileShader 2, .GetShaderiv 2 COMPILE_STATUS], none)
          ([.CreateShader VERTEX_SHADER, .ShaderSource 1 "\na\nb\x00".toList,
              .CompileShader 1, .GetShaderiv 1 COMPILE_STATUS,
              .CreateShader FRAGMENT_SHADER, .ShaderSource 2 "\nc\x00".toList,
              .CompileShader 2, .GetShaderiv 2 COMPILE_STATUS]
            ++ [.CreateProgram, .AttachShader 3 1, .AttachShader 3 2, .LinkProgram 3]
            ++ [.GetProgramiv 3 LINK_STATUS, .DetachShader 3 1, .DetachShader 3 2,
              .DeleteShader 1, .DeleteShader 2]) :=
  (newProgram_success_trace demoFS (demoDriver 1 1 1 0 [])
    "v.vert".toList "f.frag".toList [] 1 2 none
    [.CreateShader VERTEX_SHADER, .ShaderSource 1 "\na\nb\x00".toList,
      .CompileShader 1, .GetShaderiv 1 COMPILE_STATUS,
      .CreateShader FRAGMENT_SHADER, .ShaderSource 2 "\nc\x00".toList,
      .CompileShader 2, .GetShaderiv 2 COMPILE_STATUS]
    (by decide) (by decide)).1

/-- C2: for every behaviour of the GL calls, every return of newProgram has
exactly one of two shapes: a nil error together with the handle CreateProgram
returned, which happens only when the queried LINK_STATUS is not FALSE; or a
non-nil error together with handle 0. So it never returns a non-zero program
handle alongside an error, and never returns a nil error for a program whose
LINK_STATUS is FALSE. newProgram does return when both files are readable and
every reported log length lies between 0 and 2^31 - 2. -/
theorem newProgram_return_shapes (fs : FileSystem) (d : Driver) (v f : GoString)
    (t : List GLCall) :
    (∀ h e tr, newProgram fs d v f t = .ok (h, e) tr →
      ((e = none ∧ ∃ vid fid err t1,
            loadShaders fs d v f t = .ok (vid, fid, err) t1
              ∧ h = createdProgram d t1 ∧ linkStatus d vid fid t1 ≠ FALSE)
          ∨ (e ≠ none ∧ h = 0))
        ∧ (e ≠ none → h = 0)
        ∧ (∀ vid fid err t1, loadShaders fs d v f t = .ok (vid, fid, err) t1 →
            linkStatus d vid fid t1 = FALSE → e ≠ none))
    ∧ (readable fs v → readable fs f → saneLogLengths d →
        ∃ h e tr, newProgram fs d v f t = .ok (h, e) tr) := by
  constructor
  · intro h e tr hr
    obtain ⟨vid, fid, t1, hl⟩ := loadShaders_of_newProgram_ok fs d v f t _ tr hr
    rw [newProgram_of_loadShaders fs d v f t vid fid none t1 hl] at hr
    have hc := linkStage_ok_cases d vid fid t1 h e tr hr
    refine ⟨?_, ?_, ?_⟩
    · rcases hc with ⟨he, hh, hs⟩ | ⟨he, hh, _⟩
      · exact Or.inl ⟨he, vid, fid, none, t1, hl, hh, hs⟩
      · exact Or.inr ⟨he, hh⟩
    · intro he
      rcases hc with ⟨he1, _, _⟩ | ⟨_, hh, _⟩
      · exact absurd he1 he
      · exact hh
    · intro vid1 fid1 err1 t2 hl1 hs
      rw [hl] at hl1
      injection hl1 with hv ht
      simp only [Prod.mk.injEq] at hv
      obtain ⟨hv1, hv2, _⟩ := hv
      subst hv1 hv2 ht
      rcases hc with ⟨_, _, hs1⟩ | ⟨he, _, _⟩
      · exact absurd hs hs1
      · exact he
  · intro hv hf hd
    obtain ⟨vid, fid, t1, hl⟩ := loadShaders_returns fs d hd v f t hv hf
    rw [newProgram_of_loadShaders fs d v f t vid fid none t1 hl]
    exact linkStage_returns d hd vid fid t1

/-- Witness of C2: a run with a successful link returns program 3 with a nil
error, the first shape; a run with LINK_STATUS = FALSE and an empty log returns
handle 0 with the link error, the second shape. -/
theorem newProgram_return_shapes_witness :
    (((none : Option GoString) = none ∧ ∃ vid fid err t1,
          loadShaders demoFS (demoDriver 1 1 1 0 [])
              "v.vert".toList "f.frag".toList [] = .ok (vid, fid, err) t1
            ∧ 3 = createdProgram (demoDriver 1 1 1 0 []) t1
            ∧ linkStatus (demoDriver 1 1 1 0 []) vid fid t1 ≠ FALSE)
        ∨ ((none : Option GoString) ≠ none ∧ 3 = 0))
      ∧ (some (linkError [NUL]) ≠ none → 0 = 0)
      ∧ ∃ h e tr, newProgram demoFS (demoDriver 1 1 0 0 [])
          "v.vert".toList "f.frag".toList [] = .ok (h, e) tr :=
  ⟨((newProgram_return_shapes demoFS (demoDriver 1 1 1 0 [])
      "v.vert".toList "f.frag".toList []).1 3 none
      [.CreateShader VERTEX_SHADER, .ShaderSource 1 "\na\nb\x00".toList,
        .CompileShader 1, .GetShaderiv 1 COMPILE_STATUS,
        .CreateShader FRAGMENT_SHADER, .ShaderSource 2 "\nc\x00".toList,
        .CompileShader 2, .GetShaderiv 2 COMPILE_STATUS,
        .CreateProgram, .AttachShader 3 1, .AttachShader 3 2, .LinkProgram 3,
        .GetProgramiv 3 LINK_STATUS, .DetachShader 3 1, .DetachShader 3 2,
        .DeleteShader 1, .DeleteShader 2]
      (by decide)).1,
    ((newProgram_return_shapes demoFS (demoDriver 1 1 0 0 [])
      "v.vert".toList "f.frag".toList []).1 0 (some (linkError [NUL]))
      [.CreateShader VERTEX_SHADER, .ShaderSource 1 "\na\nb\x00".toList,
        .CompileShader 1, .GetShaderiv 1 COMPILE_STATUS,
        .CreateShader FRAGMENT_SHADER, .ShaderSource 2 "\nc\x00".toList,
        .CompileShader 2, .GetShaderiv 2 COMPILE_STATUS,
        .CreateProgram, .AttachShader 3 1, .AttachShader 3 2, .LinkProgram 3,
        .GetProgramiv 3 LINK_STATUS, .GetProgramiv 3 INFO_LOG_LENGTH,
        .GetProgramInfoLog 3 0 [NUL]]
      (by decide)).2.1,
    (newProgram_return_shapes demoFS (demoDriver 1 1 0 0 [])
      "v.vert".toList "f.frag".toList []).2
      ⟨⟨"a\nb\n".toList, false⟩, by decide, by decide⟩
      ⟨⟨"c\n".toList, false⟩, by decide, by decide⟩
      (by
        intro t x
        simp only [demoDriver, INFO_LOG_LENGTH, COMPILE_STATUS, LINK_STATUS]
        rw [if_neg (by decide), if_neg (by decide)]
        decide)⟩

/-! ## Claims on compileShader and the log fetch -/

/-- C4, as stated, fails: for the fragment source "\nc" with COMPILE_STATUS =
FALSE and a reported log length of 2^31 - 1, compileShader does not return
(0, err): the buffer allocation panics after the log-length query. -/
theorem compileShader_panics_on_huge_log :
    compileStatus (demoDriver 1 0 1 (2 ^ 31 - 1) []) "\nc\x00".toList FRAGMENT_SHADER []
        = FALSE
      ∧ compileShader (demoDriver 1 0 1 (2 ^ 31 - 1) []) "\nc\x00".toList FRAGMENT_SHADER []
        = .abort .panicRepeat
          [.CreateShader FRAGMENT_SHADER, .ShaderSource 2 "\nc\x00".toList,
            .CompileShader 2, .GetShaderiv 2 COMPILE_STATUS,
            .GetShaderiv 2 INFO_LOG_LENGTH] := by
  decide

/-- C4, amended: for every source string and stage kind, compileShader returns
(handle from CreateShader, nil) when the queried COMPILE_STATUS is not FALSE;
when it is FALSE and the reported log length L satisfies 0 ≤ L ≤ 2^31 - 2,
compileShader returns (0, err) where the message of err is
"failed to compile <source>: <log>" and so contains the full source and the
fetched log buffer as substrings; when it is FALSE and L is below -1 or equal
to 2^31 - 1, it panics instead of returning. -/
theorem compileShader_result (d : Driver) (source : GoString) (ty : Nat)
    (t : List GLCall) :
    (compileStatus d source ty t ≠ FALSE →
      compileShader d source ty t
        = .ok (createdShader d ty t, none) (compileTrace d source ty t))
    ∧ (compileStatus d source ty t = FALSE →
        0 ≤ compileLogLength d source ty t →
        compileLogLength d source ty t < 2 ^ 31 - 1 →
        ∃ log, log = fetchInto (logBuffer (compileLogLength d source ty t))
              (compileLogLength d source ty t)
              (d.shaderInfoLog (compileLogTrace d source ty t) (createdShader d ty t))
          ∧ compileShader d source ty t
            = .ok (0, some ("failed to compile ".toList ++ source ++ ": ".toList ++ log))
                (compileLogTrace d source ty t
                  ++ [.GetShaderInfoLog (createdShader d ty t)
                        (compileLogLength d source ty t)
                        (logBuffer (compileLogLength d source ty t))])
          ∧ source <:+: "failed to compile ".toList ++ source ++ ": ".toList ++ log
          ∧ log <:+: "failed to compile ".toList ++ source ++ ": ".toList ++ log)
    ∧ (compileStatus d source ty t = FALSE →
        (compileLogLength d source ty t < -1
          ∨ compileLogLength d source ty t = 2 ^ 31 - 1) →
        compileShader d source ty t
          = .abort .panicRepeat (compileLogTrace d source ty t)) := by
  refine ⟨compileShader_success d source ty t, ?_, compileShader_panics d source ty t⟩
  intro hs h0 h1
  exact ⟨_, rfl, compileShader_failure d source ty t hs h0 h1,
    (compile_message_contains source _).1, (compile_message_contains source _).2⟩

/-- Witness of amended C4: a rejected vertex shader with log length 3 and log
text "bad" gives (0, err) with the message
"failed to compile <source>: bad" followed by the buffer's remaining NUL. -/
theorem compileShader_result_witness :
    ∃ log, log = fetchInto (logBuffer 3) 3 "bad".toList
      ∧ compileShader (demoDriver 0 1 1 3 "bad".toList) "\na\nb\x00".toList VERTEX_SHADER []
        = .ok (0, some ("failed to compile ".toList ++ "\na\nb\x00".toList
                ++ ": ".toList ++ log))
            ([.CreateShader VERTEX_SHADER, .ShaderSource 1 "\na\nb\x00".toList,
                .CompileShader 1, .GetShaderiv 1 COMPILE_STATUS,
                .GetShaderiv 1 INFO_LOG_LENGTH]
              ++ [.GetShaderInfoLog 1 3 (logBuffer 3)])
      ∧ "\na\nb\x00".toList
          <:+: "failed to compile ".toList ++ "\na\nb\x00".toList ++ ": ".toList ++ log
      ∧ log <:+: "failed to compile ".toList ++ "\na\nb\x00".toList ++ ": ".toList ++ log :=
  (compileShader_result (demoDriver 0 1 1 3 "bad".toList) "\na\nb\x00".toList
    VERTEX_SHADER []).2.1 (by decide) (by decide) (by decide)

/-- C9, as stated, fails at L = 2^31 - 1: the int32 sum L + 1 wraps to -2^31,
strings.Repeat panics on the negative count, so no buffer of L + 1 characters
exists and no info-log fetch is made. -/
theorem log_buffer_overflow :
    toInt32 ((2 ^ 31 - 1) + 1) = -(2 ^ 31)
      ∧ stringsRepeat [NUL] (toInt32 ((2 ^ 31 - 1) + 1)) = none
      ∧ compileLogLength (demoDriver 0 1 1 (2 ^ 31 - 1) "bad".toList)
          "\na\nb\x00".toList VERTEX_SHADER [] = 2 ^ 31 - 1
      ∧ compileShader (demoDriver 0 1 1 (2 ^ 31 - 1) "bad".toList)
          "\na\nb\x00".toList VERTEX_SHADER []
        = .abort .panicRepeat
          [.CreateShader VERTEX_SHADER, .ShaderSource 1 "\na\nb\x00".toList,
            .CompileShader 1, .GetShaderiv 1 COMPILE_STATUS,
            .GetShaderiv 1 INFO_LOG_LENGTH] := by
  decide

/-- C9, amended: in compileShader and in newProgram, for every log length L
reported by the INFO_LOG_LENGTH query with 0 ≤ L ≤ 2^31 - 2, the fetch buffer
is a string of exactly L + 1 NUL characters and the info-log fetch is called
with maximum length L; at most L characters are written, the buffer keeps
length L + 1 and its last element stays NUL; for L = 0 the buffer has length 1
and the function returns its error. -/
theorem log_fetch_protocol (d : Driver) :
    (∀ source ty t, compileStatus d source ty t = FALSE →
        0 ≤ compileLogLength d source ty t →
        compileLogLength d source ty t < 2 ^ 31 - 1 →
        compileShader d source ty t
          = .ok (0, some (compileError source
                (fetchInto (logBuffer (compileLogLength d source ty t))
                  (compileLogLength d source ty t)
                  (d.shaderInfoLog (compileLogTrace d source ty t)
                    (createdShader d ty t)))))
              (compileLogTrace d source ty t
                ++ [.GetShaderInfoLog (createdShader d ty t)
                      (compileLogLength d source ty t)
                      (logBuffer (compileLogLength d source ty t))]))
    ∧ (∀ fs v f t vid fid e t1, loadShaders fs d v f t = .ok (vid, fid, e) t1 →
        linkStatus d vid fid t1 = FALSE →
        0 ≤ linkLogLength d vid fid t1 →
        linkLogLength d vid fid t1 < 2 ^ 31 - 1 →
        newProgram fs d v f t
          = .ok (0, some (linkError
                (fetchInto (logBuffer (linkLogLength d vid fid t1))
                  (linkLogLength d vid fid t1)
                  (d.programInfoLog (linkLogTrace d vid fid t1)
                    (createdProgram d t1)))))
              (linkLogTrace d vid fid t1
                ++ [.GetProgramInfoLog (createdProgram d t1)
                      (linkLogLength d vid fid t1)
                      (logBuffer (linkLogLength d vid fid t1))]))
    ∧ (∀ (L : Int) (text : GoString), 0 ≤ L →
        ((logBuffer L).length : Int) = L + 1
          ∧ (∀ c ∈ logBuffer L, c = NUL)
          ∧ ((fetchInto (logBuffer L) L text).length : Int) = L + 1
          ∧ (fetchInto (logBuffer L) L text).getLast? = some NUL
          ∧ (fetchInto (logBuffer L) L text).take (min L.toNat text.length)
              = text.take L.toNat
          ∧ (fetchInto (logBuffer L) L text).drop (min L.toNat text.length)
              = List.replicate (L.toNat + 1 - min L.toNat text.length) NUL) := by
  refine ⟨?_, ?_, ?_⟩
  · intro source ty t hs h0 h1
    exact compileShader_failure d source ty t hs h0 h1
  · intro fs v f t vid fid e t1 hl hs h0 h1
    rw [newProgram_of_loadShaders fs d v f t vid fid e t1 hl]
    exact linkStage_failure d vid fid t1 hs h0 h1
  · intro L text h0
    refine ⟨?_, ?_, ?_, ?_, ?_, ?_⟩
    · simp only [logBuffer, List.length_replicate]
      omega
    · intro c hc
      exact List.eq_of_mem_replicate hc
    · rw [logBuffer, fetchInto_length L.toNat L text rfl]
      omega
    · exact fetchInto_getLast L.toNat L text rfl
    · exact fetchInto_take L.toNat L text rfl
    · unfold fetchInto logBuffer
      have hlen : (List.take L.toNat text).length = min L.toNat text.length :=
        List.length_take _ _
      rw [← hlen, List.drop_left, hlen, List.drop_replicate]

/-- Witness of amended C9 at L = 0: the buffer is the single NUL, the fetch is
called with maximum length 0, and compileShader returns its error. -/
theorem log_fetch_protocol_witness :
    compileShader (demoDriver 0 1 1 0 "bad".toList) "\na\nb\x00".toList VERTEX_SHADER []
        = .ok (0, some (compileError "\na\nb\x00".toList [NUL]))
            [.CreateShader VERTEX_SHADER, .ShaderSource 1 "\na\nb\x00".toList,
              .CompileShader 1, .GetShaderiv 1 COMPILE_STATUS,
              .GetShaderiv 1 INFO_LOG_LENGTH, .GetShaderInfoLog 1 0 [NUL]]
      ∧ ((logBuffer 0).length : Int) = 0 + 1 :=
  ⟨(log_fetch_protocol (demoDriver 0 1 1 0 "bad".toList)).1 "\na\nb\x00".toList
      VERTEX_SHADER [] (by decide) (by decide) (by decide),
    ((log_fetch_protocol (demoDriver 0 1 1 0 "bad".toList)).2.2 0 [] (by decide)).1⟩

end GLTutorial
